import Mathlib

/-!
Verification of the CSV loading core of pytablereader
(`pytablereader/csv/core.py` and `pytablereader/error.py`).

The Python code is shallowly embedded: pure helpers become Lean
functions, the `csv.reader` tokenizer (CPython `_csv.c` with
`strict=True`, `skipinitialspace=True`, `doublequote=True`,
`escapechar=None`) becomes an explicit state machine, exceptions become
`Except`, and the file system becomes an explicit map from paths to
decoded contents.  Third-party converters (`typepy.Integer`,
`typepy.RealNumber`, `mbstrdecoder.MultiByteStrDecoder`) and repository
collaborators whose sources are not available here (`FileValidator`,
`TextValidator`, `CsvTableFormatter`) are modelled from the
specification, as marked in their doc comments.
-/

set_option maxRecDepth 4000

namespace PyTableReader

/-! ## Cell values -/

/-- A normalized cell value: integer, real number, or text.
Real numbers are modelled as rationals (the claims under study do not
depend on binary floating-point rounding). -/
inductive CellValue where
  | int (n : Int)
  | real (x : Rat)
  | text (s : String)
  deriving DecidableEq, Repr

/-! ## Numeric cell parsers

Modelled from the spec: `typepy.Integer(...).convert()` and
`typepy.RealNumber(...).convert()` are third-party converters whose
sources are not part of this repository.  The spec (section 4.2) fixes
their grammars: integer = strict numeric parse, optional sign, no
fractional part, no thousands separators; real = decimal or scientific
notation, decimal point always `.`, no locale-sensitive parsing. -/

/-- Numeric value of a non-empty list of decimal digits. -/
def digitsVal (l : List Char) : Nat :=
  l.foldl (fun a c => a * 10 + (c.toNat - 48)) 0

/-- Parse a non-empty all-digit character list. -/
def parseDigits (l : List Char) : Option Nat :=
  if !l.isEmpty && l.all Char.isDigit then some (digitsVal l) else none

/-- Modelled from the spec: the integer grammar of `typepy.Integer` —
optional sign followed by one or more decimal digits, nothing else. -/
def parse_integer (s : String) : Option Int :=
  match s.toList with
  | '+' :: rest => (parseDigits rest).map (fun n => (n : Int))
  | '-' :: rest => (parseDigits rest).map (fun n => -(n : Int))
  | l => (parseDigits l).map (fun n => (n : Int))

/-- Split an optional leading sign, returning the sign as `1` or `-1`. -/
def parseSign (l : List Char) : Int × List Char :=
  match l with
  | '+' :: rest => (1, rest)
  | '-' :: rest => (-1, rest)
  | _ => (1, l)

/-- Split a character list at the first exponent marker `e`/`E`. -/
def splitExponent (l : List Char) : List Char × Option (List Char) :=
  match l.span (fun c => !(c == 'e' || c == 'E')) with
  | (m, []) => (m, none)
  | (m, _ :: rest) => (m, some rest)

/-- Parse an unsigned decimal mantissa — digits, optionally containing
a single point, with at least one digit overall — into a numerator and
a positive power-of-ten denominator. -/
def parseMantissa (l : List Char) : Option (Int × Nat) :=
  match l.span (fun c => !(c == '.')) with
  | (intPart, []) => (parseDigits intPart).map (fun n => ((n : Int), 1))
  | (intPart, _ :: frac) =>
    if intPart.all Char.isDigit && frac.all Char.isDigit
        && (!intPart.isEmpty || !frac.isEmpty) && !frac.contains '.' then
      some (((digitsVal intPart * 10 ^ frac.length + digitsVal frac : Nat) : Int),
        10 ^ frac.length)
    else none

/-- Modelled from the spec: the real-number grammar of
`typepy.RealNumber` — optional sign, decimal mantissa, optional
scientific exponent. -/
def parse_real_number (s : String) : Option Rat :=
  let (sgn, l) := parseSign s.toList
  let (mant, expo) := splitExponent l
  match parseMantissa mant with
  | none => none
  | some (num, den) =>
    match expo with
    | none => some (mkRat (sgn * num) den)
    | some el =>
      let (esgn, edigits) := parseSign el
      match parseDigits edigits with
      | none => none
      | some e =>
        if esgn = 1 then some (mkRat (sgn * num * ((10 ^ e : Nat) : Int)) den)
        else some (mkRat (sgn * num) (den * 10 ^ e))

/-- Modelled from the spec: `MultiByteStrDecoder(data).unicode_str`
returns the decoded text of the cell; on an already-decoded string it is
the identity (multi-byte-safe decoding cannot fail, section 4.2). -/
def multiByteUnicodeStr (s : String) : String := s

/-- Embedding of `CsvTableLoader.__modify_item`: ordered trial conversion —
integer first, then real number, then text fallback. -/
def modify_item (data : String) : CellValue :=
  match parse_integer data with
  | some n => CellValue.int n
  | none =>
    match parse_real_number data with
    | some x => CellValue.real x
    | none => CellValue.text (multiByteUnicodeStr data)

/-! ## The `csv.reader` tokenizer

Embedding of the CPython `_csv.c` reader state machine as configured by
both `load()` methods: `strict=True`, `skipinitialspace=True`, and the
dialect defaults `doublequote=True`, `escapechar=None`,
`quoting=QUOTE_MINIMAL`.  The per-line layer of `Reader_iternext` is
flattened into a single pass over the character stream: `\x27\n\x27`
ends a record where CPython would process the end-of-line marker, and a
lone `\x27\r\x27` enters the end-of-line-eating state. -/

/-- Low-level failures that can abort row iteration: malformed CSV
structure (`_csv.Error`) or a character-decoding failure
(`UnicodeDecodeError`). -/
inductive ReadError where
  | csvError (msg : String)
  | unicodeDecodeError (msg : String)
  deriving DecidableEq, Repr

/-- The message carried by a low-level read failure. -/
def readErrorMessage : ReadError → String
  | ReadError.csvError msg => msg
  | ReadError.unicodeDecodeError msg => msg

/-- Parser states of the CPython `_csv.c` reader (the states reachable
with `escapechar=None`). -/
inductive PState where
  | startRecord
  | startField
  | inField
  | inQuotedField
  | quoteInQuoted
  | eatCrnl
  deriving DecidableEq, Repr

/-- Accumulator of the reader state machine: the current field (in
order), the fields of the current record, the completed records, and
the parser state. -/
structure CsvState where
  field : List Char
  fields : List String
  rows : List (List String)
  state : PState
  deriving Repr

/-- The initial reader state. -/
def csvInit : CsvState :=
  { field := [], fields := [], rows := [], state := PState.startRecord }

/-- CPython `parse_save_field`: close the current field. -/
def saveField (st : CsvState) : CsvState :=
  { st with field := [], fields := st.fields ++ [String.mk st.field] }

/-- Append one character to the current field. -/
def addChar (st : CsvState) (c : Char) : CsvState :=
  { st with field := st.field ++ [c] }

/-- Close the current record and return to `START_RECORD`. -/
def endRecord (st : CsvState) : CsvState :=
  { st with
    fields := [],
    rows := st.rows ++ [st.fields],
    state := PState.startRecord }

/-- CPython `START_FIELD` handling of a non-end-of-line character: quote
character, skip-initial-space, delimiter, or field data. -/
def startFieldStep (d q : Char) (st : CsvState) (c : Char) : CsvState :=
  if c == q then { st with state := PState.inQuotedField }
  else if c == ' ' then { st with state := PState.startField }
  else if c == d then { saveField st with state := PState.startField }
  else { addChar st c with state := PState.inField }

/-- One step of the reader state machine on one character. -/
def csvStep (d q : Char) (st : CsvState) (c : Char) : Except ReadError CsvState :=
  match st.state with
  | PState.startRecord =>
    if c == '\n' then Except.ok (endRecord st)
    else if c == '\r' then Except.ok { endRecord st with state := PState.eatCrnl }
    else Except.ok (startFieldStep d q st c)
  | PState.startField =>
    if c == '\n' then Except.ok (endRecord (saveField st))
    else if c == '\r' then
      Except.ok { endRecord (saveField st) with state := PState.eatCrnl }
    else Except.ok (startFieldStep d q st c)
  | PState.inField =>
    if c == '\n' then Except.ok (endRecord (saveField st))
    else if c == '\r' then
      Except.ok { endRecord (saveField st) with state := PState.eatCrnl }
    else if c == d then Except.ok { saveField st with state := PState.startField }
    else Except.ok (addChar st c)
  | PState.inQuotedField =>
    if c == q then Except.ok { st with state := PState.quoteInQuoted }
    else Except.ok (addChar st c)
  | PState.quoteInQuoted =>
    if c == q then Except.ok { addChar st c with state := PState.inQuotedField }
    else if c == d then Except.ok { saveField st with state := PState.startField }
    else if c == '\n' then Except.ok (endRecord (saveField st))
    else if c == '\r' then
      Except.ok { endRecord (saveField st) with state := PState.eatCrnl }
    else Except.error (ReadError.csvError
      (String.mk [d] ++ " expected after " ++ String.mk [q]))
  | PState.eatCrnl =>
    if c == '\n' then Except.ok { st with state := PState.startRecord }
    else if c == '\r' then Except.ok st
    else Except.error (ReadError.csvError
      "new-line character seen in unquoted field")

/-- End-of-input handling of `Reader_iternext`: a pending field or
record is flushed; an unterminated quoted field in strict mode is a
hard error. -/
def csvFinish (st : CsvState) : Except ReadError (List (List String)) :=
  match st.state with
  | PState.startRecord => Except.ok st.rows
  | PState.eatCrnl => Except.ok st.rows
  | PState.startField => Except.ok (endRecord (saveField st)).rows
  | PState.inField => Except.ok (endRecord (saveField st)).rows
  | PState.quoteInQuoted => Except.ok (endRecord (saveField st)).rows
  | PState.inQuotedField => Except.error (ReadError.csvError "unexpected end of data")

/-- Embedding of `csv.reader(...)` with delimiter `d`, quote character `q`,
`strict=True` and `skipinitialspace=True`, run to completion over a
decoded character stream: either the list of raw rows or the
tokenizer error that aborted iteration. -/
def csvReader (d q : Char) (content : String) : Except ReadError (List (List String)) :=
  match content.toList.foldlM (csvStep d q) csvInit with
  | Except.ok st => csvFinish st
  | Except.error e => Except.error e

/-! ## Loader errors, configuration and matrix construction -/

/-- Errors a `load()` call can surface to its caller: the unified data
error (`pytablereader.DataError`), a validation error from the source
validator, and the empty-data condition signalled by the formatter
stage. -/
inductive LoadError where
  | dataError (msg : String)
  | validationError (source : String)
  | emptyDataError (msg : String)
  deriving DecidableEq, Repr

/-- Loader configuration, as initialised by `CsvTableLoader.__init__`:
`headers = ()`, `delimiter = ","`, `quotechar =: a double quote`.  The
per-format sequential id used by the Text variant's default table-name
template is injected explicitly instead of being process-global. -/
structure LoaderConfig where
  headers : List String := []
  delimiter : Char := ','
  quotechar : Char := '"'
  formatId : Nat := 0
  deriving Repr

/-- Third-party `typepy.is_not_empty_sequence(row)`: a length test — true exactly
when the row has at least one cell, whatever the cells contain. -/
def is_not_empty_sequence (row : List String) : Bool :=
  !row.isEmpty

/-- Embedding of `CsvTableLoader._to_data_matrix`: filter out rows failing
`is_not_empty_sequence`, normalize every remaining cell with
`__modify_item`, and wrap any `csv.Error` or `UnicodeDecodeError` from
iteration into the unified `DataError`. -/
def to_data_matrix (reader : Except ReadError (List (List String))) :
    Except LoadError (List (List CellValue)) :=
  match reader with
  | Except.ok rows =>
    Except.ok ((rows.filter is_not_empty_sequence).map (fun row => row.map modify_item))
  | Except.error e => Except.error (LoadError.dataError (readErrorMessage e))

/-! ## Table formatting -/

/-- Decidable equality of `Except` results, for evaluating load
outcomes on concrete inputs. -/
instance instDecEqExcept {ε α : Type} [DecidableEq ε] [DecidableEq α] :
    DecidableEq (Except ε α) := fun a b =>
  match a, b with
  | Except.ok x, Except.ok y =>
    match decEq x y with
    | isTrue h => isTrue (by rw [h])
    | isFalse h => isFalse (by intro hh; cases hh; exact h rfl)
  | Except.ok _, Except.error _ => isFalse (by intro hh; cases hh)
  | Except.error _, Except.ok _ => isFalse (by intro hh; cases hh)
  | Except.error x, Except.error y =>
    match decEq x y with
    | isTrue h => isTrue (by rw [h])
    | isFalse h => isFalse (by intro hh; cases hh; exact h rfl)

/-- The final table: resolved name, header list, and data matrix. -/
structure Table where
  name : String
  headers : List String
  rows : List (List CellValue)
  deriving DecidableEq, Repr

/-- Render a normalized header cell back to a header string. -/
def cellToHeaderStr : CellValue → String
  | CellValue.int n => toString n
  | CellValue.real x => toString x
  | CellValue.text s => s

/-- Modelled from the spec: `CsvTableFormatter` (a repository module
whose source is not available here) — an empty matrix signals the
empty-data condition; with no explicit headers the first matrix row
becomes the header and the remaining rows the data; with explicit
headers the whole matrix is data (section 4.6). -/
def formatTable (name : String) (headers : List String)
    (matrix : List (List CellValue)) : Except LoadError Table :=
  match matrix with
  | [] => Except.error (LoadError.emptyDataError "invalid data")
  | firstRow :: rest =>
    match headers with
    | [] =>
      Except.ok { name := name, headers := firstRow.map cellToHeaderStr, rows := rest }
    | _ :: _ =>
      Except.ok { name := name, headers := headers, rows := firstRow :: rest }

/-- The observable data semantics of a load result: headers and data
rows, with the table name (the acknowledged naming asymmetry between
the two variants) projected away. -/
def tableSem (r : Except LoadError Table) :
    Except LoadError (List String × List (List CellValue)) :=
  match r with
  | Except.ok t => Except.ok (t.headers, t.rows)
  | Except.error e => Except.error e

/-! ## The two load entry points -/

/-- Observable resource/side-effect events of a File-variant `load()`
call, in program order: source validation, `io.open` of the file
stream, tokenizer construction and row iteration, and (never emitted by
this code) closing of the file stream. -/
inductive Event where
  | validate
  | openFile
  | tokenize
  | closeFile
  deriving DecidableEq, Repr

/-- Python `str.strip()` whitespace. -/
def isPyWhitespace (c : Char) : Bool :=
  c == ' ' || c == '\t' || c == '\n' || c == '\r'
    || c == Char.ofNat 11 || c == Char.ofNat 12

/-- Python `str.strip()`: remove leading and trailing whitespace. -/
def pyStrip (s : String) : String :=
  String.mk (((s.toList.dropWhile isPyWhitespace).reverse.dropWhile isPyWhitespace).reverse)

/-- Embedding of `CsvTableFileLoader.load`: validate the source path (modelled from
the spec, `FileValidator` being a repository module whose source is not
available here: the path must name an existing readable file, else a
validation error propagates uncaught), then open the file stream,
construct the tokenizer over it, build the data matrix, and format the
table.  The file system is an explicit map from paths to decoded file
contents; the result is paired with the trace of resource events, in
which no close of the file stream ever occurs (the code never closes
the stream it opens).  The default table name template resolves to the
file name. -/
def fileLoad (files : String → Option String) (path : String)
    (cfg : LoaderConfig) : Except LoadError Table × List Event :=
  match files path with
  | none => (Except.error (LoadError.validationError path), [Event.validate])
  | some content =>
    match to_data_matrix (csvReader cfg.delimiter cfg.quotechar content) with
    | Except.error e =>
      (Except.error e, [Event.validate, Event.openFile, Event.tokenize])
    | Except.ok matrix =>
      (formatTable path cfg.headers matrix,
        [Event.validate, Event.openFile, Event.tokenize])

/-- Embedding of `CsvTableTextLoader.load`: validate the source text (modelled from
the spec, `TextValidator` being a repository module whose source is not
available here: the text must be non-empty, else a validation error
propagates uncaught), strip leading/trailing whitespace, construct the
tokenizer over the stripped text, build the data matrix, and format the
table.  The default table name template resolves to the format name
plus the per-format id. -/
def textLoad (text : String) (cfg : LoaderConfig) : Except LoadError Table :=
  if text = "" then Except.error (LoadError.validationError text)
  else
    match to_data_matrix (csvReader cfg.delimiter cfg.quotechar (pyStrip text)) with
    | Except.error e => Except.error e
    | Except.ok matrix => formatTable ("csv" ++ toString cfg.formatId) cfg.headers matrix

/-! ## Header-list alias (`CsvTableLoader.header_list`) -/

/-- The deprecated `header_list` property getter: returns `headers`. -/
def header_list (cfg : LoaderConfig) : List String :=
  cfg.headers

/-- The deprecated `header_list` property setter: assigns `headers`. -/
def set_header_list (cfg : LoaderConfig) (value : List String) : LoaderConfig :=
  { cfg with headers := value }

/-- Assignment to the canonical `headers` attribute. -/
def set_headers (cfg : LoaderConfig) (value : List String) : LoaderConfig :=
  { cfg with headers := value }

/-! ## The exception taxonomy of `pytablereader/error.py` -/

/-- The exception classes declared in `error.py`, plus the Python
built-in classes they derive from. -/
inductive PyClass where
  | exceptionCls
  | valueErrorCls
  | ioErrorCls
  | validationErrorCls
  | invalidNameErrorCls
  | invalidTableNameErrorCls
  | invalidHeaderNameErrorCls
  | invalidFilePathErrorCls
  | invalidDataErrorCls
  | emptyDataErrorCls
  | openErrorCls
  | loaderNotFoundErrorCls
  deriving DecidableEq, Repr

/-- The immediate base class of each class, as written in `error.py`
(`None` for the built-in root `Exception`). -/
def pySuperclass : PyClass → Option PyClass
  | PyClass.exceptionCls => none
  | PyClass.valueErrorCls => some PyClass.exceptionCls
  | PyClass.ioErrorCls => some PyClass.exceptionCls
  | PyClass.validationErrorCls => some PyClass.exceptionCls
  | PyClass.invalidNameErrorCls => some PyClass.exceptionCls
  | PyClass.invalidTableNameErrorCls => some PyClass.invalidNameErrorCls
  | PyClass.invalidHeaderNameErrorCls => some PyClass.invalidNameErrorCls
  | PyClass.invalidFilePathErrorCls => some PyClass.invalidNameErrorCls
  | PyClass.invalidDataErrorCls => some PyClass.valueErrorCls
  | PyClass.emptyDataErrorCls => some PyClass.invalidDataErrorCls
  | PyClass.openErrorCls => some PyClass.ioErrorCls
  | PyClass.loaderNotFoundErrorCls => some PyClass.exceptionCls

/-- Reflexive-transitive subclass test along `pySuperclass` chains
(bounded by a fuel larger than any chain in the hierarchy). -/
def isSubclassAux : Nat → PyClass → PyClass → Bool
  | 0, _, _ => false
  | fuel + 1, c, d =>
    c == d ||
      (match pySuperclass c with
       | some p => isSubclassAux fuel p d
       | none => false)

/-- Python `issubclass(c, d)` over the embedded hierarchy. -/
def isSubclass (c d : PyClass) : Bool :=
  isSubclassAux 12 c d

/-- Python `except handler:` semantics: a handler clause for class
`handler` catches a raised instance of class `raised` exactly when
`raised` is a subclass of `handler`. -/
def catches (handler raised : PyClass) : Bool :=
  isSubclass raised handler

/-! ## Claim theorems -/

/-- C1: `__modify_item` performs ordered trial conversion with integer
strictly before real number — every cell that parses under the integer
grammar is returned as the parsed integer value (never a real or text
value), and every cell that fails integer parsing but parses under the
real-number grammar is returned as the parsed real value. -/
theorem modify_item_ordered_trial :
    (∀ s n, parse_integer s = some n → modify_item s = CellValue.int n) ∧
    (∀ s x, parse_integer s = none → parse_real_number s = some x →
      modify_item s = CellValue.real x) := by
  constructor
  · intro s n h
    simp [modify_item, h]
  · intro s x h1 h2
    simp [modify_item, h1, h2]

/-- Witness for C1 at the concrete cells from the spec: `"007"` is
returned as integer 7 and `"3.5"` as the real number 7/2. -/
theorem modify_item_ordered_trial_witness :
    modify_item "007" = CellValue.int 7 ∧
    modify_item "3.5" = CellValue.real (mkRat 7 2) :=
  ⟨modify_item_ordered_trial.1 "007" 7 (by decide),
   modify_item_ordered_trial.2 "3.5" (mkRat 7 2) (by decide) (by decide)⟩

/-- C2: `__modify_item` is total — a cell that fails both the integer
and the real-number conversion attempts is returned as the decoded text
of the cell, and this fallback cannot fail (the function is defined on
every input string). -/
theorem modify_item_text_fallback :
    ∀ s, parse_integer s = none → parse_real_number s = none →
      modify_item s = CellValue.text (multiByteUnicodeStr s) := by
  intro s h1 h2
  simp [modify_item, h1, h2]

/-- Witness for C2 at the concrete cell `"hello"`. -/
theorem modify_item_text_fallback_witness :
    modify_item "hello" = CellValue.text (multiByteUnicodeStr "hello") :=
  modify_item_text_fallback "hello" (by decide) (by decide)

/-- Counterexample to C3 as stated: on the row stream of the input
`"1\n,"` — one data row `["1"]` plus one all-empty-string row
`["", ""]` — `_to_data_matrix` keeps the all-empty row (the filter
`is_not_empty_sequence` only tests length), producing a two-row matrix
where the claim predicts a one-row matrix. -/
theorem row_filter_counterexample :
    to_data_matrix (csvReader ',' '"' "1\n,") =
      Except.ok [[CellValue.int 1], [CellValue.text "", CellValue.text ""]] ∧
    (to_data_matrix (csvReader ',' '"' "1\n,")).map List.length = Except.ok 2 := by
  constructor
  · decide
  · decide

/-- C3 amended: every row in the matrix produced by `_to_data_matrix`
has at least one cell — rows with zero cells (blank lines) never appear
in the output matrix, and an input of one data row plus one zero-cell
row yields a one-row matrix; rows whose cells are all empty strings are
retained. -/
theorem row_filter_drops_zero_cell_rows :
    (∀ rows matrix, to_data_matrix (Except.ok rows) = Except.ok matrix →
      ∀ row ∈ matrix, row ≠ []) ∧
    to_data_matrix (csvReader ',' '"' "1,2\n\n") =
      Except.ok [[CellValue.int 1, CellValue.int 2]] := by
  constructor
  · intro rows matrix h row hrow
    simp only [to_data_matrix, Except.ok.injEq] at h
    subst h
    obtain ⟨r0, hr0, rfl⟩ := List.mem_map.mp hrow
    have hne : is_not_empty_sequence r0 = true := (List.mem_filter.mp hr0).2
    intro hnil
    rcases List.map_eq_nil_iff.mp hnil with rfl
    simp [is_not_empty_sequence] at hne
  · decide

/-- Witness for C3 amended: a stream of one data row plus one zero-cell
row yields a one-row matrix whose row is non-empty. -/
theorem row_filter_drops_zero_cell_rows_witness :
    [CellValue.int 1] ≠ ([] : List CellValue) :=
  row_filter_drops_zero_cell_rows.1 [["1"], []] [[CellValue.int 1]] (by decide)
    [CellValue.int 1] (by decide)

/-- C4: every tokenizer-level or decoding error raised during row
iteration is re-raised by `_to_data_matrix` as the unified `DataError`;
an error outcome is always of the `DataError` kind, never a raw
`csv.Error` or `UnicodeDecodeError`; and an unterminated quoted field
in strict mode produces this data error rather than a best-effort
row. -/
theorem data_error_unification :
    (∀ e, to_data_matrix (Except.error e) =
      Except.error (LoadError.dataError (readErrorMessage e))) ∧
    (∀ reader le, to_data_matrix reader = Except.error le →
      ∃ msg, le = LoadError.dataError msg) ∧
    to_data_matrix (csvReader ',' '"' "a,\"bc") =
      Except.error (LoadError.dataError "unexpected end of data") := by
  refine ⟨fun e => rfl, ?_, by decide⟩
  intro reader le h
  cases reader with
  | ok rows => simp [to_data_matrix] at h
  | error e =>
    simp only [to_data_matrix, Except.error.injEq] at h
    exact ⟨readErrorMessage e, h.symm⟩

/-- Witness for C4 at the strict-mode unterminated-quote input
`"a,\"bc"`. -/
theorem data_error_unification_witness :
    ∃ msg, LoadError.dataError "unexpected end of data" = LoadError.dataError msg :=
  data_error_unification.2.1 (csvReader ',' '"' "a,\"bc")
    (LoadError.dataError "unexpected end of data") (by decide)

/-- C5: source validation runs before any tokenizer construction, I/O
or parsing — a File-variant load of a nonexistent path stops with a
validation error and a trace containing only the validation event, and
a Text-variant load of empty text likewise fails validation; in both
cases the error surfaces as the validation kind, never wrapped into the
data error. -/
theorem validation_error_precedes_tokenizer :
    ∀ files path cfg cfg2, files path = none →
      fileLoad files path cfg =
        (Except.error (LoadError.validationError path), [Event.validate]) ∧
      textLoad "" cfg2 = Except.error (LoadError.validationError "") := by
  intro files path cfg cfg2 h
  constructor
  · simp [fileLoad, h]
  · rfl

/-- Witness for C5 at a concrete nonexistent path. -/
theorem validation_error_precedes_tokenizer_witness :
    fileLoad (fun _ => none) "missing.csv" {} =
      (Except.error (LoadError.validationError "missing.csv"), [Event.validate]) ∧
    textLoad "" {} = Except.error (LoadError.validationError "") :=
  validation_error_precedes_tokenizer (fun _ => none) "missing.csv" {} {} rfl

/-- C6 (divergence witness): `CsvTableFileLoader.load` opens the file
stream but never closes it on any exit path — the event trace of every
File-variant load contains no close event, while a load of an existing
file (on both the success path and the tokenizer-error path) does
contain the open event. -/
theorem file_stream_never_closed :
    (∀ files path cfg, List.elem Event.closeFile (fileLoad files path cfg).2 = false) ∧
    List.elem Event.openFile
      (fileLoad (fun _ => some "a,b\n1,2\n") "sample.csv" {}).2 = true ∧
    List.elem Event.openFile
      (fileLoad (fun _ => some "\"bad") "sample.csv" {}).2 = true ∧
    List.elem Event.closeFile
      (fileLoad (fun _ => some "\"bad") "sample.csv" {}).2 = false := by
  refine ⟨?_, by decide, by decide, by decide⟩
  intro files path cfg
  cases h : files path with
  | none => simp [fileLoad, h]
  | some content =>
    cases hm : to_data_matrix (csvReader cfg.delimiter cfg.quotechar content) with
    | ok m => simp [fileLoad, h, hm]
    | error e => simp [fileLoad, h, hm]

/-- Helper: the data semantics of a formatted table do not depend on
the resolved table name. -/
theorem tableSem_formatTable (n1 n2 : String) (hs : List String)
    (m : List (List CellValue)) :
    tableSem (formatTable n1 hs m) = tableSem (formatTable n2 hs m) := by
  cases m with
  | nil => rfl
  | cons r rest =>
    cases hs with
    | nil => rfl
    | cons a tl => rfl

/-- Counterexample to C7 as stated: on the decoded text `"1,2 "` (with
a trailing space), the Text variant trims before tokenizing and yields
header `["1", "2"]`, while the File variant on a file with the same
decoded text yields header `["1", "2 "]` — the trimming is a semantic
asymmetry beyond encoding, file validation and table naming. -/
theorem text_file_semantics_counterexample :
    tableSem (textLoad "1,2 " {}) = Except.ok (["1", "2"], []) ∧
    tableSem (fileLoad (fun p => if p = "x.csv" then some "1,2 " else none)
      "x.csv" {}).1 = Except.ok (["1", "2 "], []) ∧
    decide (tableSem (textLoad "1,2 " {}) =
      tableSem (fileLoad (fun p => if p = "x.csv" then some "1,2 " else none)
        "x.csv" {}).1) = false := by
  refine ⟨by decide, by decide, by decide⟩

/-- C7 amended: for every source text, the Text-variant load has
exactly the same data semantics (headers and data matrix) as the
File-variant load of a file containing the trimmed text — beyond
encoding resolution, file-existence validation, the default table-name
template, and the Text variant's leading/trailing whitespace trim, the
two variants agree. -/
theorem text_file_equivalence_on_stripped (t path : String)
    (cfg : LoaderConfig) (h : t ≠ "") :
    tableSem (textLoad t cfg) =
      tableSem (fileLoad (fun p => if p = path then some (pyStrip t) else none)
        path cfg).1 := by
  unfold textLoad fileLoad
  rw [if_neg h]
  simp only [if_pos]
  cases hm : to_data_matrix (csvReader cfg.delimiter cfg.quotechar (pyStrip t)) with
  | ok m => simp only [hm]; exact tableSem_formatTable _ _ _ _
  | error e => simp only [hm]

/-- Witness for C7 amended at a concrete two-row CSV text with leading
whitespace. -/
theorem text_file_equivalence_on_stripped_witness :
    tableSem (textLoad " a,b\n1,2\n" {}) =
      tableSem (fileLoad
        (fun p => if p = "f.csv" then some (pyStrip " a,b\n1,2\n") else none)
        "f.csv" {}).1 :=
  text_file_equivalence_on_stripped " a,b\n1,2\n" "f.csv" {} (by decide)

/-- C8: loading the text `"a,b,c\n1,2,3\n4,5,6\n"` with no explicit
headers yields header `["a", "b", "c"]` and data rows
`[[1, 2, 3], [4, 5, 6]]` with every data cell an integer value. -/
theorem round_trip_scenario :
    tableSem (textLoad "a,b,c\n1,2,3\n4,5,6\n" {}) =
      Except.ok (["a", "b", "c"],
        [[CellValue.int 1, CellValue.int 2, CellValue.int 3],
         [CellValue.int 4, CellValue.int 5, CellValue.int 6]]) := by
  decide

/-- C9: the deprecated `header_list` field is an exact alias of
`headers` — assigning through either name is read back identically
through both, and reading `header_list` always returns `headers`. -/
theorem header_list_is_alias :
    ∀ (cfg : LoaderConfig) (v : List String),
      (set_header_list cfg v).headers = v ∧
      header_list (set_header_list cfg v) = v ∧
      header_list (set_headers cfg v) = v ∧
      header_list cfg = cfg.headers :=
  fun _ _ => ⟨rfl, rfl, rfl, rfl⟩

/-- C10: in `error.py`, `EmptyDataError` is a subclass of
`InvalidDataError`, itself a subclass of `ValueError`, so the two error
kinds are not disjoint at the type level: every handler class that
catches `InvalidDataError` also catches `EmptyDataError`. -/
theorem empty_data_error_in_taxonomy :
    isSubclass PyClass.emptyDataErrorCls PyClass.invalidDataErrorCls = true ∧
    isSubclass PyClass.invalidDataErrorCls PyClass.valueErrorCls = true ∧
    ∀ handler : PyClass, catches handler PyClass.invalidDataErrorCls = true →
      catches handler PyClass.emptyDataErrorCls = true := by
  refine ⟨by decide, by decide, ?_⟩
  intro handler
  cases handler <;> decide

/-- Witness for C10: a handler for `ValueError` catches
`EmptyDataError`. -/
theorem empty_data_error_in_taxonomy_witness :
    catches PyClass.valueErrorCls PyClass.emptyDataErrorCls = true :=
  empty_data_error_in_taxonomy.2.2 PyClass.valueErrorCls (by decide)

end PyTableReader
